import Mathlib

/-!
# CampusReads — Recommendation Engine: formal model and verification

Shallow embedding of `src/components/Recommendations.tsx`
(`loadRecommendations`) over snapshots of the two external stores:
the `borrowed_books` ledger and the `books` catalog.

Database reads are embedded as list operations over the snapshot in
store order: a supabase `select` with filters is `List.filter`, and
`limit n` is `List.take n`.  Each read can also fail: the supabase
client resolves with `data = null` on a query error (modelled as
`ReadMode.nodata`), and a rejected promise throws into the
component's `try`/`catch` (modelled as `ReadMode.thrown`, which makes
the component keep its initial empty `recommendations` state).
-/

namespace CampusReads

/-- Catalog row (`books` table), as selected by `select('*')` in
`Recommendations.tsx`. -/
structure Book where
  id : Nat
  isbn : String
  name : String
  author : String
  category : String
  available_copies : Nat
  deriving Repr, DecidableEq

/-- Borrow-ledger row (`borrowed_books` table).  The engine selects only
`book_isbn` filtered by `user_email`; the `returned` flag exists in the
schema (`returned BOOLEAN NOT NULL DEFAULT FALSE`) and defines which
records are *active*, but `loadRecommendations` never filters on it. -/
structure BorrowRecord where
  user_email : String
  book_isbn : String
  returned : Bool
  deriving Repr, DecidableEq

/-- A snapshot of the two external stores, rows in store order. -/
structure Store where
  borrowed_books : List BorrowRecord
  books : List Book
  deriving Repr, DecidableEq

/-- Outcome of one supabase read: `ok` (data returned), `nodata`
(resolved with an error object, `data` is `null`), or `thrown`
(the awaited promise rejected, control jumps to the `catch`). -/
inductive ReadMode where
  | thrown
  | nodata
  | ok
  deriving Repr, DecidableEq

/-- One failure pattern: an outcome for each of the five reads
`loadRecommendations` can issue. -/
structure Failures where
  borrowsRead : ReadMode
  allBooksRead : ReadMode
  userBooksRead : ReadMode
  recommendedRead : ReadMode
  additionalRead : ReadMode
  deriving Repr, DecidableEq

/-- The failure pattern in which every read succeeds. -/
def Failures.allOk : Failures := ⟨.ok, .ok, .ok, .ok, .ok⟩

/-- The caller's full borrow history:
`supabase.from('borrowed_books').select('book_isbn').eq('user_email', userEmail)` —
note: *no* filter on `returned`. -/
def allBorrowsOf (email : String) (s : Store) : List String :=
  (s.borrowed_books.filter (fun r => r.user_email == email)).map (·.book_isbn)

/-- The caller's *active* borrow identifiers (records with
`returned = false`).  This is the spec's `ownSet`; the code never
computes it, but the claims quantify over it. -/
def activeIsbnsOf (email : String) (s : Store) : List String :=
  (s.borrowed_books.filter
    (fun r => r.user_email == email && !r.returned)).map (·.book_isbn)

/-- `(xs.filter (· == c)).length`: occurrences of one category. -/
def countOcc (xs : List String) (c : String) : Nat :=
  (xs.filter (fun x => x == c)).length

/-- `Object.entries(categoryCount).sort((a, b) => b[1] - a[1])[0]?.[0]`:
the first-inserted category of maximal count (JS object keys iterate in
insertion order and `Array.prototype.sort` is stable), `none` when the
category list is empty. -/
def favoriteCategory (cats : List String) : Option String :=
  cats.foldl
    (fun acc c =>
      match acc with
      | none => some c
      | some best => if countOcc cats best < countOcc cats c then some c else acc)
    none

/-- The favorite category actually used in the query:
`.eq('category', favoriteCategory || '')`. -/
def favCatOf (email : String) (s : Store) : String :=
  (favoriteCategory
    ((s.books.filter
        (fun b => (allBorrowsOf email s).contains b.isbn)).map (·.category))).getD ""

/-- The no-history query:
`.from('books').select('*').gt('available_copies', 0).limit(5)` —
first five available catalog rows in store order (no `order` clause). -/
def globalTier (s : Store) : List Book :=
  (s.books.filter (fun b => decide (0 < b.available_copies))).take 5

/-- The category-affinity query:
`.eq('category', favoriteCategory || '').gt('available_copies', 0)
 .not('isbn', 'in', isbnList).limit(5)`. -/
def categoryTier (email : String) (s : Store) : List Book :=
  (s.books.filter
    (fun b => b.category == favCatOf email s
      && decide (0 < b.available_copies)
      && !(allBorrowsOf email s).contains b.isbn)).take 5

/-- The top-up query:
`.gt('available_copies', 0).not('isbn', 'in', isbnList).limit(n)` —
it excludes only the caller's own borrows, not books already chosen by
the category tier. -/
def fillTier (email : String) (s : Store) (n : Nat) : List Book :=
  (s.books.filter
    (fun b => decide (0 < b.available_copies)
      && !(allBorrowsOf email s).contains b.isbn)).take n

/-- `loadRecommendations` from `Recommendations.tsx`, with an explicit
failure pattern for the five reads.  A `thrown` read lands in the outer
`catch`, so the component's `recommendations` state stays `[]`; a
`nodata` read is seen by the code as `null` data. -/
def loadRecommendationsF (email : String) (s : Store) (f : Failures) : List Book :=
  match f.borrowsRead with
  | .thrown => []
  | .nodata =>
      -- `borrows` is null, `!borrows` is true: the popular-books branch runs.
      match f.allBooksRead with
      | .ok => globalTier s
      | _ => []
  | .ok =>
      let borrows := allBorrowsOf email s
      if borrows = [] then
        match f.allBooksRead with
        | .ok => globalTier s
        | _ => []
      else
        match f.userBooksRead with
        | .thrown => []
        | um =>
          let userCats : List String :=
            match um with
            | .ok => (s.books.filter (fun b => borrows.contains b.isbn)).map (·.category)
            | _ => []
          let favCat := (favoriteCategory userCats).getD ""
          match f.recommendedRead with
          | .thrown => []
          | rm =>
            let recommended : Option (List Book) :=
              match rm with
              | .ok => some ((s.books.filter
                  (fun b => b.category == favCat
                    && decide (0 < b.available_copies)
                    && !borrows.contains b.isbn)).take 5)
              | _ => none
            let recList := recommended.getD []
            if recommended = none ∨ recList.length < 5 then
              match f.additionalRead with
              | .thrown => []
              | am =>
                let additional : List Book :=
                  match am with
                  | .ok => (s.books.filter
                      (fun b => decide (0 < b.available_copies)
                        && !borrows.contains b.isbn)).take (5 - recList.length)
                  | _ => []
                recList ++ additional
            else recList

/-- `loadRecommendations` when every read succeeds: the engine as a pure
function of the caller identity and the store snapshot. -/
def loadRecommendations (email : String) (s : Store) : List Book :=
  loadRecommendationsF email s Failures.allOk

/-- The main path of the engine, written as the spec's tier composition:
category tier first, topped up by the fill tier when it yields fewer
than 5 entries. -/
def categoryThenFill (email : String) (s : Store) : List Book :=
  let r := categoryTier email s
  if r.length < 5 then r ++ fillTier email s (5 - r.length) else r

/-! ## Spec-side definitions

The following definitions follow the words of the specification
(§4.1 steps 1–4), not the source; they exist only to compare the
spec's peer-based collaborative-filtering algorithm against what the
code computes. -/

/-- Modelled from the spec: "read all of the caller's *active*
(unreturned) borrow records; extract the set of book identifiers, call
it `ownSet`" (step 1). -/
def specOwnSet (email : String) (s : Store) : List String :=
  ((s.borrowed_books.filter
      (fun r => r.user_email == email && !r.returned)).map (·.book_isbn)).eraseDups

/-- Modelled from the spec: "query all *other* borrowers' active borrow
records whose book identifier is in `ownSet`. Collect the distinct set
of peer identities" (step 2). -/
def specPeers (email : String) (s : Store) : List String :=
  ((s.borrowed_books.filter
      (fun r => r.user_email != email && !r.returned
        && (specOwnSet email s).contains r.book_isbn)).map (·.user_email)).eraseDups

/-- Modelled from the spec: "query all active borrow records belonging
to `peers`" (step 3), as their book identifiers. -/
def specPeerRecordIsbns (email : String) (s : Store) : List String :=
  (s.borrowed_books.filter
    (fun r => (specPeers email s).contains r.user_email && !r.returned)).map (·.book_isbn)

/-- First key of maximal occurrence count among `keys` (stable,
first-occurrence tie-break). -/
def pickMaxKey (cand : List String) (keys : List String) : Option String :=
  keys.foldl
    (fun acc k =>
      match acc with
      | none => some k
      | some best => if countOcc cand best < countOcc cand k then some k else acc)
    none

/-- Keys of `cand` in descending occurrence order (ties by first
occurrence), at most `n` of them. -/
def topFreq : Nat → List String → List String → List String
  | 0, _, _ => []
  | n + 1, cand, keys =>
    match pickMaxKey cand keys with
    | none => []
    | some k => k :: topFreq n cand (keys.erase k)

/-- Modelled from the spec: "count occurrences of each book identifier
among peers' records, excluding any identifier already in `ownSet` …
Sort identifiers by descending frequency; ties broken by … insertion
order of first occurrence. Take the top 5 identifiers" (step 4). -/
def specPeerTop5 (email : String) (s : Store) : List String :=
  let cand := (specPeerRecordIsbns email s).filter
    (fun i => !(specOwnSet email s).contains i)
  topFreq 5 cand cand.eraseDups

/-! ## Concrete snapshots used in counterexamples and witnesses -/

/-- Catalog entry, category `catA`, one available copy. -/
def bkX : Book := ⟨1, "x", "X", "au", "catA", 1⟩

/-- Catalog entry, category `catB`, one available copy. -/
def bkY : Book := ⟨2, "y", "Y", "au", "catB", 1⟩

/-- Catalog entry, category `catA`, one available copy. -/
def bkZ : Book := ⟨3, "z", "Z", "au", "catA", 1⟩

/-- Catalog entry, category `catB`, two available copies. -/
def bkW : Book := ⟨4, "w", "W", "au", "catB", 2⟩

/-- Snapshot for C1: alice actively borrows `x`; bob (a peer) actively
borrows `x` and `y`; the catalog holds `x`, `y`, `z`, all available. -/
def c1State : Store :=
  ⟨[⟨"alice", "x", false⟩, ⟨"bob", "x", false⟩, ⟨"bob", "y", false⟩],
   [bkX, bkY, bkZ]⟩

/-- Snapshot for C2: carol has exactly one borrow record, already
returned, for `x`; the catalog holds `x` and `w`, both available. -/
def c2State : Store := ⟨[⟨"carol", "x", true⟩], [bkX, bkW]⟩

/-- Snapshot for C3's counterexample: no failures anywhere, yet the
catalog is empty, so every tier legitimately returns nothing. -/
def c3State : Store := ⟨[], []⟩

/-- Snapshot for C3's witness: one available book, no ledger rows. -/
def c3WitnessState : Store := ⟨[], [bkW]⟩

/-- Snapshot for C4: no ledger rows; two available books whose
available-copy counts increase in store order. -/
def c4State : Store :=
  ⟨[], [⟨1, "b1", "B1", "au", "c", 1⟩, ⟨2, "b2", "B2", "au", "c", 3⟩]⟩

/-- Snapshot for C4's witness: no ledger rows; three available books and
two with zero copies, interleaved. -/
def c4WitnessState : Store :=
  ⟨[], [⟨1, "a1", "A1", "au", "c", 2⟩, ⟨2, "u1", "U1", "au", "c", 0⟩,
        ⟨3, "a2", "A2", "au", "c", 7⟩, ⟨4, "u2", "U2", "au", "c", 0⟩,
        ⟨5, "a3", "A3", "au", "c", 4⟩]⟩

/-- Snapshot for C5: alice borrowed `x` (category `F`); the only other
book `y` shares that category and is available. -/
def c5State : Store :=
  ⟨[⟨"alice", "x", false⟩],
   [⟨1, "x", "X", "au", "F", 1⟩, ⟨2, "y", "Y", "au", "F", 2⟩]⟩

/-- Snapshot shared by the C6/C9/C10 witnesses: dora actively borrows
`x` and has returned `y`; the catalog holds `x`, `y`, `z`, `w`. -/
def c6State : Store :=
  ⟨[⟨"dora", "x", false⟩, ⟨"dora", "y", true⟩],
   [bkX, bkY, bkZ, bkW]⟩

/-! ## Helper lemmas -/

theorem activeIsbnsOf_subset (email : String) (s : Store) :
    activeIsbnsOf email s ⊆ allBorrowsOf email s := by
  intro i hi
  simp only [activeIsbnsOf, List.mem_map, List.mem_filter, Bool.and_eq_true] at hi
  obtain ⟨r, ⟨hr, hu, _⟩, hie⟩ := hi
  exact List.mem_map.mpr ⟨r, List.mem_filter.mpr ⟨hr, hu⟩, hie⟩

theorem loadRecommendations_eq_global (email : String) (s : Store)
    (h : allBorrowsOf email s = []) :
    loadRecommendations email s = globalTier s := by
  simp [loadRecommendations, loadRecommendationsF, Failures.allOk, h]

theorem loadRecommendations_eq_categoryThenFill (email : String) (s : Store)
    (h : allBorrowsOf email s ≠ []) :
    loadRecommendations email s = categoryThenFill email s := by
  simp [loadRecommendations, loadRecommendationsF, Failures.allOk, h,
    categoryThenFill, categoryTier, fillTier, favCatOf]

theorem mem_globalTier {s : Store} {b : Book} (h : b ∈ globalTier s) :
    0 < b.available_copies := by
  simp only [globalTier] at h
  have h' := List.mem_of_mem_take h
  simp only [List.mem_filter, decide_eq_true_eq] at h'
  exact h'.2

theorem mem_categoryTier {email : String} {s : Store} {b : Book}
    (h : b ∈ categoryTier email s) :
    0 < b.available_copies ∧ b.isbn ∉ allBorrowsOf email s := by
  simp only [categoryTier] at h
  have h' := List.mem_of_mem_take h
  simp at h'
  exact ⟨by tauto, by tauto⟩

theorem mem_fillTier {email : String} {s : Store} {b : Book} {n : Nat}
    (h : b ∈ fillTier email s n) :
    0 < b.available_copies ∧ b.isbn ∉ allBorrowsOf email s := by
  simp only [fillTier] at h
  have h' := List.mem_of_mem_take h
  simp at h'
  exact ⟨by tauto, by tauto⟩

theorem mem_categoryThenFill {email : String} {s : Store} {b : Book}
    (hb : b ∈ categoryThenFill email s) :
    0 < b.available_copies ∧ b.isbn ∉ allBorrowsOf email s := by
  simp only [categoryThenFill] at hb
  split at hb
  · rcases List.mem_append.mp hb with h1 | h2
    · exact mem_categoryTier h1
    · exact mem_fillTier h2
  · exact mem_categoryTier hb

/-! ## Claim theorems -/

/-- C6: for every borrower, the returned list never contains a book
identifier that is in that borrower's own active-borrow set — the code
excludes the caller's *entire* borrow history (a superset of the active
set) on the history path, and on the no-history path the active set is
empty. -/
theorem c6_never_recommends_active (email : String) (s : Store) (b : Book)
    (hb : b ∈ loadRecommendations email s) :
    b.isbn ∉ activeIsbnsOf email s := by
  intro hact
  have hall : b.isbn ∈ allBorrowsOf email s := activeIsbnsOf_subset email s hact
  by_cases h : allBorrowsOf email s = []
  · rw [h] at hall
    exact absurd hall (List.not_mem_nil _)
  · rw [loadRecommendations_eq_categoryThenFill email s h] at hb
    exact absurd hall (mem_categoryThenFill hb).2

/-- Witness for C6 at a concrete snapshot: dora actively borrows `x`,
book `z` is recommended to her, and `z` is indeed outside her active
set. -/
theorem c6_never_recommends_active_witness :
    bkZ ∈ loadRecommendations "dora" c6State ∧
    bkZ.isbn ∉ activeIsbnsOf "dora" c6State :=
  ⟨by decide, c6_never_recommends_active "dora" c6State bkZ (by decide)⟩

/-- C7: for every borrower, every entry of the returned list has a
strictly positive available-copy count in the snapshot used — every
book query carries `.gt('available_copies', 0)`. -/
theorem c7_only_available (email : String) (s : Store) (b : Book)
    (hb : b ∈ loadRecommendations email s) :
    0 < b.available_copies := by
  by_cases h : allBorrowsOf email s = []
  · rw [loadRecommendations_eq_global email s h] at hb
    exact mem_globalTier hb
  · rw [loadRecommendations_eq_categoryThenFill email s h] at hb
    exact (mem_categoryThenFill hb).1

/-- Witness for C7 at a concrete snapshot: book `w` is recommended to
dora and has positive availability. -/
theorem c7_only_available_witness :
    bkW ∈ loadRecommendations "dora" c6State ∧ 0 < bkW.available_copies :=
  ⟨by decide, c7_only_available "dora" c6State bkW (by decide)⟩

/-- C8: for every borrower, every store state, and even every pattern of
read failures, the returned list has length at most 5: every branch is
capped by `limit(5)` or `limit(5 - recommended.length)`. -/
theorem c8_length_le_five (email : String) (s : Store) (f : Failures) :
    (loadRecommendationsF email s f).length ≤ 5 := by
  rcases f with ⟨fb, fa, fu, fr, fad⟩
  unfold loadRecommendationsF
  cases fb <;> cases fa <;> cases fu <;> cases fr <;> cases fad <;>
    simp [globalTier, List.length_take] <;>
    (repeat' split) <;>
    simp_all [List.length_append, List.length_take] <;> omega

/-- C1 (counterexample): alice has a non-empty active own-set `["x"]`
and a peer (bob, who actively holds `x` and also `y`, an available
book); the spec's peer-frequency top-5 is exactly `["y"]`, so under the
claim the candidate list would begin with `y` before any fallback tier
is consulted.  The code instead returns `["z", "y", "z"]`: its first
entry `z` was never borrowed by any peer — the candidates are not
derived from peers' records at all. -/
theorem c1_counterexample :
    specOwnSet "alice" c1State = ["x"] ∧
    specPeers "alice" c1State = ["bob"] ∧
    specPeerTop5 "alice" c1State = ["y"] ∧
    0 < bkY.available_copies ∧
    (loadRecommendations "alice" c1State).map Book.isbn = ["z", "y", "z"] ∧
    "z" ∉ specPeerRecordIsbns "alice" c1State := by
  refine ⟨rfl, rfl, rfl, by decide, rfl, by decide⟩

/-- C1 (amended): for every borrower with at least one borrow record
(returned or not), the candidates are derived from the caller's own
history by category affinity — available catalog entries in the caller's
most frequent borrowed category, excluding the caller's borrowed
identifiers, first 5 in store order — topped up by the fill query; no
peer-based frequency ranking exists in the code. -/
theorem c1_category_affinity (email : String) (s : Store)
    (h : allBorrowsOf email s ≠ []) :
    loadRecommendations email s = categoryThenFill email s ∧
    ∀ b ∈ categoryTier email s, b.category = favCatOf email s := by
  refine ⟨loadRecommendations_eq_categoryThenFill email s h, ?_⟩
  intro b hb
  have h' := List.mem_of_mem_take (by simpa only [categoryTier] using hb)
  simp at h'
  tauto

/-- Witness for C1's amended theorem at a concrete snapshot. -/
theorem c1_category_affinity_witness :
    loadRecommendations "alice" c1State = categoryThenFill "alice" c1State :=
  (c1_category_affinity "alice" c1State (by decide)).1

/-- C2 (counterexample): carol's only borrow record is *returned*, so
her spec `ownSet` is empty and, under the claim, her result would come
from the no-own-context fallback — the global tier, `[x, w]` here.  The
code instead derives `["x"]` from her full history, takes the
category-affinity path, and returns `[w]`: the returned record both
selects the favorite category and excludes `x` from the output. -/
theorem c2_counterexample :
    specOwnSet "carol" c2State = [] ∧
    allBorrowsOf "carol" c2State = ["x"] ∧
    loadRecommendations "carol" c2State = [bkW] ∧
    globalTier c2State = [bkX, bkW] ∧
    loadRecommendations "carol" c2State ≠ globalTier c2State := by
  refine ⟨rfl, rfl, rfl, rfl, by decide⟩

/-- C2 (amended): the engine's first step derives the caller's interest
set from ALL of the caller's borrow records, returned ones included;
only a borrower with zero records of any kind is routed to the global
fallback, and a borrower all of whose records are returned is still
handled by the category-affinity path. -/
theorem c2_history_includes_returned (email : String) (s : Store) :
    (allBorrowsOf email s = [] → loadRecommendations email s = globalTier s) ∧
    (specOwnSet email s = [] → allBorrowsOf email s ≠ [] →
      loadRecommendations email s = categoryThenFill email s) :=
  ⟨loadRecommendations_eq_global email s,
   fun _ h => loadRecommendations_eq_categoryThenFill email s h⟩

/-- Witness for C2's amended theorem: carol (all records returned) is
handled by the category path, not the global fallback. -/
theorem c2_history_includes_returned_witness :
    loadRecommendations "carol" c2State = categoryThenFill "carol" c2State :=
  (c2_history_includes_returned "carol" c2State).2 (by decide) (by decide)

/-- C3 (counterexample): with an empty catalog and NO read failure
anywhere (`Failures.allOk`), the engine still returns the empty
sequence — refuting the claim's "only if every tier fails does the
engine return an empty sequence". -/
theorem c3_counterexample :
    loadRecommendationsF "eve" c3State Failures.allOk = [] := rfl

/-- C3 (amended): a null-data failure of a read is treated as an empty
result for that step and the algorithm falls through — a failed ledger
read routes to the global tier, a failed category-tier read routes to
the fill tier, a failed fill read leaves the category tier's entries —
if the reads of a whole pass fail the engine returns `[]`, and a thrown
error is swallowed by the catch (the caller sees an empty list, never an
exception). -/
theorem c3_failure_fallthrough (email : String) (s : Store) (f : Failures) :
    (f.borrowsRead = .nodata → f.allBooksRead ≠ .ok →
      loadRecommendationsF email s f = []) ∧
    (f.borrowsRead = .nodata → f.allBooksRead = .ok →
      loadRecommendationsF email s f = globalTier s) ∧
    (f.borrowsRead = .ok → allBorrowsOf email s ≠ [] → f.userBooksRead = .ok →
      f.recommendedRead = .nodata → f.additionalRead = .ok →
      loadRecommendationsF email s f = fillTier email s 5) ∧
    (f.borrowsRead = .ok → allBorrowsOf email s ≠ [] → f.userBooksRead = .ok →
      f.recommendedRead = .ok → f.additionalRead = .nodata →
      loadRecommendationsF email s f = categoryTier email s) ∧
    (f.borrowsRead = .thrown → loadRecommendationsF email s f = []) := by
  rcases f with ⟨fb, fa, fu, fr, fad⟩
  refine ⟨?_, ?_, ?_, ?_, ?_⟩
  · rintro rfl h2
    cases fa <;> simp_all [loadRecommendationsF]
  · rintro rfl rfl
    simp [loadRecommendationsF]
  · rintro rfl h2 rfl rfl rfl
    simp [loadRecommendationsF, h2, fillTier, favCatOf]
  · rintro rfl h2 rfl rfl rfl
    simp only [loadRecommendationsF, if_neg h2]
    simp [categoryTier, favCatOf]
  · rintro rfl
    simp [loadRecommendationsF]

/-- Witness for C3's amended theorem at concrete failure patterns over a
concrete snapshot. -/
theorem c3_failure_fallthrough_witness :
    loadRecommendationsF "dora" c6State ⟨.nodata, .ok, .ok, .ok, .ok⟩
      = globalTier c6State ∧
    loadRecommendationsF "dora" c6State ⟨.nodata, .nodata, .ok, .ok, .ok⟩ = [] ∧
    loadRecommendationsF "dora" c6State ⟨.thrown, .ok, .ok, .ok, .ok⟩ = [] :=
  ⟨(c3_failure_fallthrough "dora" c6State _).2.1 rfl rfl,
   (c3_failure_fallthrough "dora" c6State _).1 rfl (by decide),
   (c3_failure_fallthrough "dora" c6State _).2.2.2.2 rfl⟩

/-- C4 (counterexample): with no history and a catalog whose two
available books have copy counts `1` then `3` in store order, the
engine returns them in store order `[1, 3]` — not in the claimed
descending available-copy order (the query has no `order` clause). -/
theorem c4_counterexample :
    (loadRecommendations "alice" c4State).map Book.available_copies = [1, 3] ∧
    ¬ List.Pairwise (fun a b => b ≤ a)
        ((loadRecommendations "alice" c4State).map Book.available_copies) :=
  ⟨rfl, by decide⟩

/-- C4 (amended): for a borrower with no borrowing history the result is
the first at-most-5 available catalog entries in store order (only
entries with `available_copies > 0`, no reordering), so its length is
`min 5 (number of available entries)`. -/
theorem c4_no_history_available_only (email : String) (s : Store)
    (h : allBorrowsOf email s = []) :
    loadRecommendations email s
      = (s.books.filter (fun b => decide (0 < b.available_copies))).take 5 ∧
    (loadRecommendations email s).length
      = min 5 (s.books.filter (fun b => decide (0 < b.available_copies))).length := by
  have hg := loadRecommendations_eq_global email s h
  refine ⟨hg, ?_⟩
  rw [hg]
  simp [globalTier, List.length_take]

/-- Witness for C4's amended theorem: 3 available and 2 unavailable
books give exactly the 3 available ones, in store order, length 3. -/
theorem c4_no_history_available_only_witness :
    loadRecommendations "alice" c4WitnessState
      = [⟨1, "a1", "A1", "au", "c", 2⟩, ⟨3, "a2", "A2", "au", "c", 7⟩,
         ⟨5, "a3", "A3", "au", "c", 4⟩] :=
  ((c4_no_history_available_only "alice" c4WitnessState rfl).1).trans rfl

/-- C5 (code bug): alice borrowed `x` of category `F`; the only other
catalog entry `y` shares that category and is available.  The category
tier picks `y`, and the top-up query — which excludes only alice's own
borrows, not the entries already chosen — picks `y` again: the returned
list contains the same identifier twice, contradicting the claim (and
the code's own comment "add more from other categories", and the
renderer's use of `book.id` as a unique React key). -/
theorem c5_duplicate_recommendation :
    (loadRecommendations "alice" c5State).map Book.isbn = ["y", "y"] ∧
    ¬ (loadRecommendations "alice" c5State).Nodup :=
  ⟨rfl, by decide⟩

/-- C9: the engine is a deterministic function of the borrower identity
and the store snapshot: two invocations over identical snapshots, with
no intervening writes, yield identical ordered output. -/
theorem c9_idempotent (email : String) (s1 s2 : Store) (h : s1 = s2) :
    loadRecommendations email s1 = loadRecommendations email s2 := by
  rw [h]

/-- Witness for C9 at a concrete snapshot. -/
theorem c9_idempotent_witness :
    loadRecommendations "dora" c6State = loadRecommendations "dora" c6State :=
  c9_idempotent "dora" c6State c6State rfl

/-- C10: for every borrower with at least one borrow record, the
returned list excludes the caller's entire borrow history — returned
records included — because `isbnList` is built without filtering on the
`returned` flag and both the category query and the fill query carry
`.not('isbn', 'in', isbnList)`. -/
theorem c10_excludes_full_history (email : String) (s : Store) (b : Book)
    (hhist : allBorrowsOf email s ≠ []) (hb : b ∈ loadRecommendations email s) :
    b.isbn ∉ allBorrowsOf email s := by
  rw [loadRecommendations_eq_categoryThenFill email s hhist] at hb
  exact (mem_categoryThenFill hb).2

/-- Witness for C10 at a concrete snapshot: dora's history is
`["x", "y"]` (`y` already returned); the recommended book `w` is outside
that whole history — and indeed the returned book `y` is never
recommended to her. -/
theorem c10_excludes_full_history_witness :
    allBorrowsOf "dora" c6State = ["x", "y"] ∧
    bkW ∈ loadRecommendations "dora" c6State ∧
    bkW.isbn ∉ allBorrowsOf "dora" c6State :=
  ⟨by decide, by decide,
    c10_excludes_full_history "dora" c6State bkW (by decide) (by decide)⟩

end CampusReads
